import Mathlib

/-!
# Verification of the express-zod-middleware request-validation layer

Shallow embedding of the package's five source files:

* `src/middlewares.ts` — `validateRequest`, `withParsedRequest` and their
  one-channel shorthands (the Channel Dispatcher);
* `src/send-error.ts` — `PackageConfiguration`, `sendError`, `sendErrors`
  (the Error Responder with the process-wide override slot);
* `src/index.ts` — an older self-contained copy whose `sendError` /
  `sendErrors` duplicate the serialization logic and never consult the
  override slot (embedded in namespace `IndexTs`).

The schema capability (zod) is opaque to this layer: a schema is modelled as
a function from a channel value to either a parsed value or a structured
`ZodError`.  Channel data is polymorphic in a type `V` because the TypeScript
code treats it dynamically.  The Express response object is modelled at the
boundary: `status`, `setHeader` and `json`, with `json`'s documented
behaviour of appending `charset=utf-8` to an already-set content-type that
lacks a charset parameter when sending a string body.
-/

/-- A single zod path segment: zod's `ZodIssue.path` is `(string | number)[]`. -/
inductive PathSeg where
  | str (s : String)
  | num (n : Nat)
deriving DecidableEq, Repr

/-- JavaScript template-literal rendering of a path segment. -/
def PathSeg.render : PathSeg → String
  | .str s => s
  | .num n => toString n

/-- One structured validation issue: `{ message, path }` of a zod issue. -/
structure ZodIssue where
  message : String
  path : List PathSeg
deriving DecidableEq, Repr

/-- A zod error: the `errors` field is the list of issues. -/
structure ZodError where
  errors : List ZodIssue
deriving DecidableEq, Repr

/-- `RequestInputType = "params" | "query" | "body"` from `src/middlewares.ts`. -/
inductive RequestInputType where
  | params
  | query
  | body
deriving DecidableEq, Repr

/-- The string a channel identifier interpolates to in a template literal. -/
def RequestInputType.name : RequestInputType → String
  | .params => "params"
  | .query => "query"
  | .body => "body"

/-- JavaScript rendering of `x.path[0]` inside a template literal: indexing
past the end of an array yields `undefined`, and `${undefined}` renders as
the string `"undefined"`. -/
def jsHead : List PathSeg → String
  | [] => "undefined"
  | s :: _ => s.render

/-- One entry of the flattened `errors` array: `{ detail, pointer }`. -/
structure ErrorEntry where
  detail : String
  pointer : String
deriving DecidableEq, Repr

/-- A JSON value, used for the serialized response body. -/
inductive Json where
  | str (s : String)
  | num (n : Int)
  | arr (xs : List Json)
  | obj (fields : List (String × Json))

/-- Top-level keys of a JSON object (`[]` for non-objects). -/
def Json.keys : Json → List String
  | .obj fields => fields.map Prod.fst
  | _ => []

/-- The Express response object, modelled at the package boundary:
a status code, a header list, and the JSON body written by `res.json`. -/
structure Resp where
  statusCode : Option Nat
  headers : List (String × String)
  body : Option Json

/-- Header lookup; Express header names are case-insensitive. -/
def getHeader (hs : List (String × String)) (k : String) : Option String :=
  (hs.find? (fun p => p.1.toLower == k.toLower)).map Prod.snd

/-- `res.setHeader(k, v)`: replaces any existing header with the same
(case-insensitive) name. -/
def Resp.setHeader (res : Resp) (k v : String) : Resp :=
  { res with headers := res.headers.filter (fun p => p.1.toLower != k.toLower) ++ [(k, v)] }

/-- `res.status(n)`. -/
def Resp.status (res : Resp) (n : Nat) : Resp :=
  { res with statusCode := some n }

/-- Substring test on character lists (structural, so that the kernel can
evaluate it). -/
def containsSub : List Char → List Char → Bool
  | [], sub => sub.isEmpty
  | l@(_ :: tl), sub => sub.isPrefixOf l || containsSub tl sub

/-- Express's `setCharset`: append `charset=utf-8` to a content-type that
does not already carry a charset parameter. -/
def setCharset (t : String) : String :=
  if containsSub t.data "charset=".data then t else t ++ "; charset=utf-8"

/-- `res.json(j)`: serializes `j` as the body; if no content-type is set it
becomes `application/json`, and since the serialized body is a string Express
appends `charset=utf-8` to the content-type. -/
def Resp.json (res : Resp) (j : Json) : Resp :=
  let ct := match getHeader res.headers "content-type" with
    | none => "application/json"
    | some t => t
  let res := res.setHeader "content-type" (setCharset ct)
  { res with body := some j }

/-- `PackageConfiguration` from `src/send-error.ts`: the single optional
process-wide override slot for the Error Responder. -/
structure PackageConfigurationT where
  sendErrors : Option (Resp → List (RequestInputType × ZodError) → Resp)

/-- The flattening step of `sendErrors` (`src/send-error.ts`):
`zodErrors.flatMap(([inputType, zodError]) => zodError.errors.map(x =>
({ detail: x.message, pointer: `#${inputType}/${x.path[0]}` })))`. -/
def buildErrors (zodErrors : List (RequestInputType × ZodError)) : List ErrorEntry :=
  zodErrors.flatMap (fun p =>
    p.2.errors.map (fun x =>
      { detail := x.message, pointer := "#" ++ p.1.name ++ "/" ++ jsHead x.path }))

/-- The constant `type` string of the problem payload. -/
def problemTypeUri : String :=
  "https://datatracker.ietf.org/doc/html/rfc9110#name-422-unprocessable-content"

/-- The constant `title` string of the problem payload. -/
def problemTitle : String := "Your request is not valid."

/-- The constant `detail` string of the problem payload. -/
def problemDetail : String := "Input is invalid, see 'errors' for more information."

/-- Serialization of one `{ detail, pointer }` entry. -/
def ErrorEntry.toJson (e : ErrorEntry) : Json :=
  Json.obj [("detail", Json.str e.detail), ("pointer", Json.str e.pointer)]

/-- The `problem` object of `sendErrors`: the five-field problem payload. -/
def problemJson (errors : List ErrorEntry) : Json :=
  Json.obj
    [ ("type", Json.str problemTypeUri)
    , ("title", Json.str problemTitle)
    , ("detail", Json.str problemDetail)
    , ("status", Json.num 422)
    , ("errors", Json.arr (errors.map ErrorEntry.toJson)) ]

/-- `sendErrors` from `src/send-error.ts`: delegate to the configured
override when present, otherwise flatten the failures and write the
problem-details response (`res.status(422)`, content-type header,
`res.json(problem)`). -/
def sendErrors (cfg : PackageConfigurationT) (res : Resp)
    (zodErrors : List (RequestInputType × ZodError)) : Resp :=
  match cfg.sendErrors with
  | some f => f res zodErrors
  | none =>
    let errors := buildErrors zodErrors
    let res := res.status 422
    let res := res.setHeader "content-type" "application/problem+json"
    res.json (problemJson errors)

/-- `sendError` from `src/send-error.ts`: wraps its single pair into a
one-element list and delegates to `sendErrors`. -/
def sendError (cfg : PackageConfigurationT) (res : Resp)
    (inputType : RequestInputType) (zodError : ZodError) : Resp :=
  sendErrors cfg res [(inputType, zodError)]

namespace IndexTs

/-- `sendError` from `src/index.ts`: its own copy of the serialization
logic (`zodError.errors.map(...)`), with no override check. -/
def sendError (res : Resp) (inputType : RequestInputType) (zodError : ZodError) : Resp :=
  let errors := zodError.errors.map (fun x =>
    ({ detail := x.message, pointer := "#" ++ inputType.name ++ "/" ++ jsHead x.path } : ErrorEntry))
  let res := res.status 422
  let res := res.setHeader "content-type" "application/problem+json"
  res.json (problemJson errors)

/-- `sendErrors` from `src/index.ts`: its own copy of the flatten-and-write
logic, with no override check and no access to `PackageConfiguration`. -/
def sendErrors (res : Resp) (zodErrors : List (RequestInputType × ZodError)) : Resp :=
  let errors := zodErrors.flatMap (fun p =>
    p.2.errors.map (fun x =>
      ({ detail := x.message, pointer := "#" ++ p.1.name ++ "/" ++ jsHead x.path } : ErrorEntry)))
  let res := res.status 422
  let res := res.setHeader "content-type" "application/problem+json"
  res.json (problemJson errors)

end IndexTs

/-- The result of one zod `safeParse` call: `{ success: true, data }` or
`{ success: false, error }`.  The schema capability is opaque, so a schema
is any function from a channel value to a `ParseResult`. -/
inductive ParseResult (V : Type) where
  | success (data : V)
  | failure (error : ZodError)

/-- `RequestSchemas` from `src/middlewares.ts`: an optional schema per
channel.  Channel data is a single dynamic type `V`. -/
structure RequestSchemas (V : Type) where
  params : Option (V → ParseResult V)
  query : Option (V → ParseResult V)
  body : Option (V → ParseResult V)

/-- The three channels of an Express request that this layer reads. -/
structure Request (V : Type) where
  params : V
  query : V
  body : V

/-- The observable outcome of running one of the middlewares on a request:
the request object after the call, the response object after the call, and
whether `next()` was invoked (`calledNext = false` means the middleware
terminated the request through the Error Responder instead). -/
structure MWResult (V : Type) where
  req : Request V
  res : Resp
  calledNext : Bool

/-- The error-accumulation loop shared by `validateRequest` (lines 29-50 of
`src/middlewares.ts`): run each declared schema on its channel in the fixed
order params, query, body, pushing `[inputType, parseResult.error]` for each
failing channel. -/
def collectErrors {V : Type} (schemas : RequestSchemas V) (req : Request V) :
    List (RequestInputType × ZodError) :=
  let errors : List (RequestInputType × ZodError) := []
  let errors := match schemas.params with
    | none => errors
    | some s => match s req.params with
      | .success _ => errors
      | .failure e => errors ++ [(.params, e)]
  let errors := match schemas.query with
    | none => errors
    | some s => match s req.query with
      | .success _ => errors
      | .failure e => errors ++ [(.query, e)]
  let errors := match schemas.body with
    | none => errors
    | some s => match s req.body with
      | .success _ => errors
      | .failure e => errors ++ [(.body, e)]
  errors

/-- `validateRequest` from `src/middlewares.ts`: accumulate failures over
the three channels without touching the request, then either respond with
`sendErrors` (when any failure was recorded) or call `next()`. -/
def validateRequest {V : Type} (schemas : RequestSchemas V)
    (cfg : PackageConfigurationT) (req : Request V) (res : Resp) : MWResult V :=
  let errors := collectErrors schemas req
  if errors.length > 0 then
    { req := req, res := sendErrors cfg res errors, calledNext := false }
  else
    { req := req, res := res, calledNext := true }

/-- `validateRequestParams`: `validateRequest { params: schema }`. -/
def validateRequestParams {V : Type} (schema : V → ParseResult V) :=
  validateRequest { params := some schema, query := none, body := none }

/-- `validateRequestQuery`: `validateRequest { query: schema }`. -/
def validateRequestQuery {V : Type} (schema : V → ParseResult V) :=
  validateRequest { params := none, query := some schema, body := none }

/-- `validateRequestBody`: `validateRequest { body: schema }`. -/
def validateRequestBody {V : Type} (schema : V → ParseResult V) :=
  validateRequest { params := none, query := none, body := some schema }

/-- `withParsedRequest` from `src/middlewares.ts`: like `validateRequest`,
but each channel whose schema succeeds is immediately overwritten with the
parsed data (`req.params = parseResult.data` etc.) as the loop reaches it;
after all three channels, respond with `sendErrors` if any failure was
recorded, else call `next()`. -/
def withParsedRequest {V : Type} (schemas : RequestSchemas V)
    (cfg : PackageConfigurationT) (req : Request V) (res : Resp) : MWResult V :=
  let errors : List (RequestInputType × ZodError) := []
  let st : Request V × List (RequestInputType × ZodError) := match schemas.params with
    | none => (req, errors)
    | some s => match s req.params with
      | .failure e => (req, errors ++ [(.params, e)])
      | .success d => ({ req with params := d }, errors)
  let req := st.1
  let errors := st.2
  let st : Request V × List (RequestInputType × ZodError) := match schemas.query with
    | none => (req, errors)
    | some s => match s req.query with
      | .failure e => (req, errors ++ [(.query, e)])
      | .success d => ({ req with query := d }, errors)
  let req := st.1
  let errors := st.2
  let st : Request V × List (RequestInputType × ZodError) := match schemas.body with
    | none => (req, errors)
    | some s => match s req.body with
      | .failure e => (req, errors ++ [(.body, e)])
      | .success d => ({ req with body := d }, errors)
  let req := st.1
  let errors := st.2
  if errors.length > 0 then
    { req := req, res := sendErrors cfg res errors, calledNext := false }
  else
    { req := req, res := res, calledNext := true }

/-- `withParsedRequestParams`: `withParsedRequest { params: schema }`. -/
def withParsedRequestParams {V : Type} (schema : V → ParseResult V) :=
  withParsedRequest { params := some schema, query := none, body := none }

/-- `withParsedRequestQuery`: `withParsedRequest { query: schema }`. -/
def withParsedRequestQuery {V : Type} (schema : V → ParseResult V) :=
  withParsedRequest { params := none, query := some schema, body := none }

/-- `withParsedRequestBody`: `withParsedRequest { body: schema }`. -/
def withParsedRequestBody {V : Type} (schema : V → ParseResult V) :=
  withParsedRequest { params := none, query := none, body := some schema }

/-- The contribution of a single channel to the error accumulation: the
one-element list `[(t, e)]` when the channel has a declared schema that
rejects its data, `[]` otherwise. -/
def channelErrors {V : Type} (schema : Option (V → ParseResult V)) (v : V)
    (t : RequestInputType) : List (RequestInputType × ZodError) :=
  match schema with
  | none => []
  | some s => match s v with
    | .success _ => []
    | .failure e => [(t, e)]

/-- The value a channel holds after a `withParsedRequest` dispatch: the
schema's parsed output when a schema is declared and succeeds, the original
value otherwise. -/
def parsedChannel {V : Type} (schema : Option (V → ParseResult V)) (v : V) : V :=
  match schema with
  | none => v
  | some s => match s v with
    | .success d => d
    | .failure _ => v

/-- A fresh response object: no status, no headers, no body. -/
def emptyResp : Resp := { statusCode := none, headers := [], body := none }

/-- Concrete input refuting C1: a params schema that succeeds and transforms
(adds 100), no query schema, and a body schema that always fails. -/
def c1Schemas : RequestSchemas Int :=
  { params := some (fun v => .success (v + 100))
  , query := none
  , body := some (fun _ => .failure ⟨[⟨"Required", []⟩]⟩) }

/-- Concrete request for the C1 counterexample. -/
def c1Req : Request Int := { params := 1, query := 2, body := 3 }

/-- Concrete schema set for the C4 witness: query and body schemas that
always fail, no params schema. -/
def c4Schemas : RequestSchemas Int :=
  { params := none
  , query := some (fun _ => .failure ⟨[⟨"Required", [.str "lang"]⟩, ⟨"Required", [.str "version"]⟩]⟩)
  , body := some (fun _ => .failure ⟨[⟨"Required", [.str "newName"]⟩, ⟨"Required", [.str "newAge"]⟩]⟩) }

/-- Concrete request for the C4 witness. -/
def c4Req : Request Int := { params := 0, query := 0, body := 0 }

/-- The query-channel error of the C4 witness. -/
def c4qe : ZodError := ⟨[⟨"Required", [.str "lang"]⟩, ⟨"Required", [.str "version"]⟩]⟩

/-- The body-channel error of the C4 witness. -/
def c4be : ZodError := ⟨[⟨"Required", [.str "newName"]⟩, ⟨"Required", [.str "newAge"]⟩]⟩

/-- A concrete override responder for the C7 witness: sets status 400 and
writes no body. -/
def ovF : Resp → List (RequestInputType × ZodError) → Resp :=
  fun res _ => res.status 400

/-- `List.find?` over a list whose matching keys were filtered out, followed
by the freshly appended header, finds the appended header. -/
theorem find_after_filter (hs : List (String × String)) (k v : String) :
    ((hs.filter (fun p => p.1.toLower != k.toLower) ++ [(k, v)]).find?
      (fun p => p.1.toLower == k.toLower)) = some (k, v) := by
  induction hs with
  | nil => simp [List.find?]
  | cons h tl ih =>
    by_cases hh : h.1.toLower == k.toLower
    · simp only [List.filter_cons, bne, hh, Bool.not_true, if_neg] at *
      exact ih
    · simp only [List.filter_cons, bne]
      rw [if_pos (by simp [hh]), List.cons_append, List.find?_cons_of_neg _ (by simp [hh])]
      exact ih

/-- After `setHeader k v`, looking up `k` yields `v`. -/
theorem getHeader_setHeader_self (res : Resp) (k v : String) :
    getHeader (res.setHeader k v).headers k = some v := by
  unfold getHeader Resp.setHeader
  simp only [find_after_filter, Option.map_some']

/-- The default path of `sendErrors` always emits content-type
`application/problem+json; charset=utf-8` (the header the code sets plus
the charset parameter Express appends when sending a string body). -/
theorem getHeader_sendErrors_none (res : Resp)
    (zs : List (RequestInputType × ZodError)) :
    getHeader (sendErrors ⟨none⟩ res zs).headers "content-type" =
      some "application/problem+json; charset=utf-8" := by
  unfold sendErrors Resp.json
  simp only
  rw [show getHeader (((res.status 422).setHeader "content-type" "application/problem+json").headers) "content-type" = some "application/problem+json" from getHeader_setHeader_self _ _ _]
  have hcs : setCharset "application/problem+json" = "application/problem+json; charset=utf-8" := by
    rfl
  rw [hcs]
  exact getHeader_setHeader_self _ _ _

/-- `collectErrors` decomposes into per-channel contributions in the fixed
order params, query, body. -/
theorem collectErrors_decomp {V : Type} (schemas : RequestSchemas V) (req : Request V) :
    collectErrors schemas req =
      channelErrors schemas.params req.params .params ++
      channelErrors schemas.query req.query .query ++
      channelErrors schemas.body req.body .body := by
  unfold collectErrors channelErrors
  rcases schemas with ⟨p, q, b⟩
  rcases p with _ | sp <;> rcases q with _ | sq <;> rcases b with _ | sb <;>
    simp only [] <;>
    (try cases sp req.params) <;> (try cases sq req.query) <;> (try cases sb req.body) <;>
    simp

/-- `buildErrors` distributes over list append. -/
theorem buildErrors_append (a b : List (RequestInputType × ZodError)) :
    buildErrors (a ++ b) = buildErrors a ++ buildErrors b := by
  unfold buildErrors
  exact List.flatMap_append a b _

/-- Characterization of `withParsedRequest`: its error list is exactly
`collectErrors`, each channel ends up holding `parsedChannel` of its
original value, and the terminal action is decided by the error list. -/
theorem withParsedRequest_eq {V : Type} (schemas : RequestSchemas V)
    (cfg : PackageConfigurationT) (req : Request V) (res : Resp) :
    withParsedRequest schemas cfg req res =
      (let errors := collectErrors schemas req
       let req' : Request V :=
         { params := parsedChannel schemas.params req.params
         , query := parsedChannel schemas.query req.query
         , body := parsedChannel schemas.body req.body }
       if errors.length > 0 then
         { req := req', res := sendErrors cfg res errors, calledNext := false }
       else
         { req := req', res := res, calledNext := true }) := by
  unfold withParsedRequest collectErrors parsedChannel
  rcases req with ⟨rp, rq, rb⟩
  rcases schemas with ⟨p, q, b⟩
  rcases p with _ | sp <;> rcases q with _ | sq <;> rcases b with _ | sb <;>
    simp only [] <;>
    (try cases sp rp) <;> (try cases sq rq) <;> (try cases sb rb) <;>
    simp

/-- An `if` guarded by `length > 0` is the flipped `if` guarded by `= []`. -/
theorem ite_length_pos {α β : Type} [DecidableEq β] (l : List β) (A B : α) :
    (if l.length > 0 then A else B) = if l = [] then B else A := by
  by_cases h : l = [] <;> simp [h, List.length_pos]

/-- Claim C5 (confirmed): `validateRequest` (and hence the one-channel
shorthands `validateRequestParams` / `validateRequestQuery` /
`validateRequestBody`) never changes the request's params, query or body,
whether the outcome is accept or reject; the parsed output of each schema is
discarded. -/
theorem validateRequest_preserves_request {V : Type} (schemas : RequestSchemas V)
    (schema : V → ParseResult V) (cfg : PackageConfigurationT)
    (req : Request V) (res : Resp) :
    (validateRequest schemas cfg req res).req = req ∧
    (validateRequestParams schema cfg req res).req = req ∧
    (validateRequestQuery schema cfg req res).req = req ∧
    (validateRequestBody schema cfg req res).req = req := by
  have base : ∀ ss : RequestSchemas V, (validateRequest ss cfg req res).req = req := by
    intro ss
    unfold validateRequest
    dsimp only
    split <;> rfl
  exact ⟨base _, base _, base _, base _⟩

/-- Claim C1 counterexample: in parse mode, a params schema that succeeds
(and transforms) has already replaced `req.params` when a later channel
(body) fails, so the dispatch call does mutate channel data on an overall
rejection — the all-or-nothing reading of C1 is false on the code. -/
theorem withParsedRequest_not_all_or_nothing :
    collectErrors c1Schemas c1Req = [(.body, ⟨[⟨"Required", []⟩]⟩)] ∧
    (withParsedRequest c1Schemas ⟨none⟩ c1Req emptyResp).calledNext = false ∧
    (withParsedRequest c1Schemas ⟨none⟩ c1Req emptyResp).req.params ≠ c1Req.params := by
  refine ⟨rfl, rfl, ?_⟩
  decide

/-- Claim C1 (amended): in parse mode, mutation is per channel, not
all-or-nothing: after the dispatch call each channel holds its schema's
parsed output when a schema was declared and succeeded, and its original
value when no schema was declared or the schema failed — even when another
channel fails and the request is rejected (the rejected request is handed to
the Error Responder, not to `next`, so the mutation is not observable
downstream). -/
theorem withParsedRequest_mutates_per_channel {V : Type} (schemas : RequestSchemas V)
    (cfg : PackageConfigurationT) (req : Request V) (res : Resp) :
    (withParsedRequest schemas cfg req res).req =
      { params := parsedChannel schemas.params req.params
      , query := parsedChannel schemas.query req.query
      , body := parsedChannel schemas.body req.body } := by
  rw [withParsedRequest_eq]
  by_cases h : (collectErrors schemas req).length > 0 <;> simp [h]

/-- Claim C6 (confirmed): both middlewares take exactly one terminal action:
`next()` is called exactly when no declared schema fails, and otherwise the
response is exactly what the Error Responder produces; an empty schema set
always forwards, and on success the response object is untouched (no status
is set). -/
theorem dispatch_exactly_one_terminal_action {V : Type} (schemas : RequestSchemas V)
    (cfg : PackageConfigurationT) (req : Request V) (res : Resp) :
    ((validateRequest schemas cfg req res).calledNext = true ↔
       collectErrors schemas req = []) ∧
    ((withParsedRequest schemas cfg req res).calledNext = true ↔
       collectErrors schemas req = []) ∧
    ((validateRequest schemas cfg req res).res =
       if collectErrors schemas req = [] then res
       else sendErrors cfg res (collectErrors schemas req)) ∧
    ((withParsedRequest schemas cfg req res).res =
       if collectErrors schemas req = [] then res
       else sendErrors cfg res (collectErrors schemas req)) ∧
    (validateRequest (⟨none, none, none⟩ : RequestSchemas V) cfg req res).calledNext = true ∧
    (withParsedRequest (⟨none, none, none⟩ : RequestSchemas V) cfg req res).calledNext = true := by
  have hval : validateRequest schemas cfg req res =
      if collectErrors schemas req = []
      then { req := req, res := res, calledNext := true }
      else { req := req, res := sendErrors cfg res (collectErrors schemas req),
             calledNext := false } := by
    unfold validateRequest
    exact ite_length_pos _ _ _
  have hpar : withParsedRequest schemas cfg req res =
      if collectErrors schemas req = []
      then { req := { params := parsedChannel schemas.params req.params
                    , query := parsedChannel schemas.query req.query
                    , body := parsedChannel schemas.body req.body }
           , res := res, calledNext := true }
      else { req := { params := parsedChannel schemas.params req.params
                    , query := parsedChannel schemas.query req.query
                    , body := parsedChannel schemas.body req.body }
           , res := sendErrors cfg res (collectErrors schemas req)
           , calledNext := false } := by
    rw [withParsedRequest_eq]
    exact ite_length_pos _ _ _
  refine ⟨?_, ?_, ?_, ?_, rfl, rfl⟩ <;> simp only [hval, hpar] <;>
    by_cases h : collectErrors schemas req = [] <;> simp [h]

/-- Claim C4 (confirmed): the dispatcher evaluates all three channels in the
fixed order params, query, body without stopping at the first failure, so
the error collection has one entry per failing declared channel in that
order; consequently when both the query and the body schema fail, the
flattened errors place every query-channel entry strictly before every
body-channel entry. -/
theorem errors_ordered_across_channels {V : Type} (schemas : RequestSchemas V)
    (req : Request V) (qs bs : V → ParseResult V) (qe be : ZodError)
    (hq : schemas.query = some qs) (hqe : qs req.query = .failure qe)
    (hb : schemas.body = some bs) (hbe : bs req.body = .failure be) :
    collectErrors schemas req =
      channelErrors schemas.params req.params .params ++
        ([(.query, qe)] ++ [(.body, be)]) ∧
    buildErrors (collectErrors schemas req) =
      buildErrors (channelErrors schemas.params req.params .params) ++
        (buildErrors [(.query, qe)] ++ buildErrors [(.body, be)]) := by
  have hq' : channelErrors schemas.query req.query .query = [(.query, qe)] := by
    unfold channelErrors
    rw [hq]
    simp [hqe]
  have hb' : channelErrors schemas.body req.body .body = [(.body, be)] := by
    unfold channelErrors
    rw [hb]
    simp [hbe]
  have hd := collectErrors_decomp schemas req
  rw [hq', hb'] at hd
  constructor
  · rw [hd, List.append_assoc]
  · rw [hd, buildErrors_append, buildErrors_append, List.append_assoc]

/-- Witness for C4 at a concrete schema set where both query and body fail
with two field failures each. -/
theorem errors_ordered_across_channels_witness :
    collectErrors c4Schemas c4Req =
      channelErrors c4Schemas.params c4Req.params .params ++
        ([(.query, c4qe)] ++ [(.body, c4be)]) ∧
    buildErrors (collectErrors c4Schemas c4Req) =
      buildErrors (channelErrors c4Schemas.params c4Req.params .params) ++
        (buildErrors [(.query, c4qe)] ++ buildErrors [(.body, c4be)]) :=
  errors_ordered_across_channels c4Schemas c4Req _ _ c4qe c4be rfl rfl rfl rfl

/-- Claim C2 counterexample: a field failure with an empty path does not
get an omitted or empty pointer — the first-segment position interpolates
JavaScript `undefined`, producing the non-empty pointer `#body/undefined`. -/
theorem pointer_empty_path_counterexample :
    buildErrors [(.body, ⟨[⟨"Required", []⟩]⟩)] =
      [⟨"Required", "#body/undefined"⟩] ∧
    ("#body/undefined" : String) ≠ "" := by
  refine ⟨rfl, ?_⟩
  decide

/-- Claim C2 (amended): each field failure serialized by the default Error
Responder yields an entry whose detail is the failure's message and whose
pointer is `#` + channel name + `/` + the rendering of the path's first
segment — path segments beyond the first play no role, and an empty path
renders the first-segment position as the string `undefined` (JavaScript
template interpolation of `undefined`), giving `#<channel>/undefined`
rather than an omitted or empty pointer. -/
theorem pointer_construction (zodErrors : List (RequestInputType × ZodError))
    (t : RequestInputType) (e : ZodError) (x : ZodIssue)
    (hte : (t, e) ∈ zodErrors) (hx : x ∈ e.errors) :
    (⟨x.message, "#" ++ t.name ++ "/" ++ jsHead x.path⟩ : ErrorEntry) ∈
      buildErrors zodErrors ∧
    jsHead [] = "undefined" ∧
    (∀ (s : PathSeg) (rest₁ rest₂ : List PathSeg),
      jsHead (s :: rest₁) = jsHead (s :: rest₂)) := by
  refine ⟨?_, rfl, fun s rest₁ rest₂ => rfl⟩
  unfold buildErrors
  rw [List.mem_flatMap]
  exact ⟨(t, e), hte, List.mem_map.mpr ⟨x, hx, rfl⟩⟩

/-- Witness for C2: a body-channel failure whose path starts with `"name"`
(and has a further segment that is not represented) produces the entry with
pointer `#body/name`. -/
theorem pointer_construction_witness :
    (⟨"Required", "#body/name"⟩ : ErrorEntry) ∈
      buildErrors [(.body, ⟨[⟨"Required", [.str "name", .str "extra"]⟩]⟩)] :=
  (pointer_construction [(.body, ⟨[⟨"Required", [.str "name", .str "extra"]⟩]⟩)]
    .body ⟨[⟨"Required", [.str "name", .str "extra"]⟩]⟩
    ⟨"Required", [.str "name", .str "extra"]⟩ (by decide) (by decide)).1

/-- Claim C3 (confirmed): the default (non-overridden) Error Responder
always emits status 422, content-type `application/problem+json;
charset=utf-8`, and a JSON body that is exactly the five-field object with
the fixed `type` / `title` / `detail` strings and integer status 422. -/
theorem default_error_response_shape (res : Resp)
    (zs : List (RequestInputType × ZodError)) :
    (sendErrors ⟨none⟩ res zs).statusCode = some 422 ∧
    getHeader (sendErrors ⟨none⟩ res zs).headers "content-type" =
      some "application/problem+json; charset=utf-8" ∧
    (sendErrors ⟨none⟩ res zs).body =
      some (Json.obj
        [ ("type", Json.str "https://datatracker.ietf.org/doc/html/rfc9110#name-422-unprocessable-content")
        , ("title", Json.str "Your request is not valid.")
        , ("detail", Json.str "Input is invalid, see 'errors' for more information.")
        , ("status", Json.num 422)
        , ("errors", Json.arr ((buildErrors zs).map ErrorEntry.toJson)) ]) ∧
    (problemJson (buildErrors zs)).keys = ["type", "title", "detail", "status", "errors"] :=
  ⟨rfl, getHeader_sendErrors_none res zs, rfl, rfl⟩

/-- Claim C7 (confirmed): when the override slot of `PackageConfiguration`
is set, `sendErrors` delegates entirely to the override with the same
inputs; the observable effect is exactly the override's output. -/
theorem override_precedence (cfg : PackageConfigurationT)
    (f : Resp → List (RequestInputType × ZodError) → Resp) (res : Resp)
    (zs : List (RequestInputType × ZodError)) (h : cfg.sendErrors = some f) :
    sendErrors cfg res zs = f res zs := by
  unfold sendErrors
  rw [h]

/-- Witness for C7 with a concrete override that sets status 400. -/
theorem override_precedence_witness :
    (PackageConfigurationT.mk (some ovF)).sendErrors = some ovF ∧
    sendErrors ⟨some ovF⟩ emptyResp [] = ovF emptyResp [] :=
  ⟨rfl, override_precedence ⟨some ovF⟩ ovF emptyResp [] rfl⟩

/-- Claim C8 (confirmed): the single-channel `sendError` has exactly the
same observable effect as `sendErrors` applied to the one-element list, for
both the `src/send-error.ts` variant (which delegates outright) and the
`src/index.ts` variant (which duplicates the logic). -/
theorem sendError_singleton_equiv (cfg : PackageConfigurationT) (res : Resp)
    (t : RequestInputType) (e : ZodError) :
    sendError cfg res t e = sendErrors cfg res [(t, e)] ∧
    IndexTs.sendError res t e = IndexTs.sendErrors res [(t, e)] := by
  refine ⟨rfl, ?_⟩
  simp [IndexTs.sendError, IndexTs.sendErrors]

/-- Claim C9 (confirmed): the `src/index.ts` variant of `sendErrors` takes
no configuration input at all — it cannot read the override slot — and for
every input it behaves exactly like the default (non-overridden) path of
the configurable responder, emitting the five-field problem payload. -/
theorem indexTs_sendErrors_ignores_override (res : Resp)
    (zs : List (RequestInputType × ZodError)) :
    IndexTs.sendErrors res zs = sendErrors ⟨none⟩ res zs ∧
    (IndexTs.sendErrors res zs).statusCode = some 422 ∧
    (IndexTs.sendErrors res zs).body = some (problemJson (buildErrors zs)) :=
  ⟨rfl, rfl, rfl⟩

/-- Claim C10 (confirmed): calling the default `sendErrors` with an empty
failure list is not a no-op: it still writes status 422, the
problem-details content-type, and the complete five-field payload whose
`errors` array is empty. -/
theorem sendErrors_empty_failure_list (res : Resp) :
    (sendErrors ⟨none⟩ res []).statusCode = some 422 ∧
    getHeader (sendErrors ⟨none⟩ res []).headers "content-type" =
      some "application/problem+json; charset=utf-8" ∧
    (sendErrors ⟨none⟩ res []).body =
      some (Json.obj
        [ ("type", Json.str problemTypeUri)
        , ("title", Json.str problemTitle)
        , ("detail", Json.str problemDetail)
        , ("status", Json.num 422)
        , ("errors", Json.arr []) ]) :=
  ⟨rfl, getHeader_sendErrors_none res [], rfl⟩
